import Mathlib

set_option maxRecDepth 200000

/-!
Verification of the Virtual Controller Pak core of N64FlashcartMenu
(`src/menu/virtual_cpak.c`, `src/menu/virtual_cpak.h`, and the startup /
recovery views), as a shallow embedding.

Modelling conventions:
* Bytes are `Nat` values (< 256 for well-formed data); byte strings are
  `List Nat`.
* The SD-card filesystem is an association list from path (`String`) to
  file contents (`List Nat`).  `file_exists` is lookup success,
  `remove` is deletion, `fopen("wb")`+full `fwrite` is insertion.
  Allocation (`malloc`), `fopen` of an existing file and complete
  `fwrite`/`remove` are modelled as succeeding: those failures are
  environmental and not decided by the code under verification.
* Path construction (`path_init` / `path_push` from `path.c`, which is
  not part of the sources) is modelled from the spec: the journal lives
  at `<storage_root>/menu/vcpak_state.dat` and pak images at
  `<storage_root>/cpak_saves/<4-char-code>/<name>.pak`.
* The struct `vcpak_state_t` is written with `fwrite(state, sizeof *state, 1, fp)`;
  the target is big-endian MIPS, so the integer fields serialize
  big-endian.  `fread(state, sizeof *state, 1, fp)` returns 1 exactly
  when the full record was read.
-/

namespace VCPakModel

/-- Byte values of a string literal (ASCII), used to write byte-string
constants readably. -/
def strBytes (s : String) : List Nat := s.data.map Char.toNat

/-- The SD-card filesystem: association list from path to file bytes. -/
abbrev Fs := List (String × List Nat)

/-- File lookup (`file_exists` + read access). First binding wins. -/
def fsGet : Fs → String → Option (List Nat)
  | [], _ => none
  | (q, v) :: rest, p => if q = p then some v else fsGet rest p

/-- Remove a file (all bindings for the path). -/
def fsErase (fs : Fs) (p : String) : Fs :=
  fs.filter (fun e => !(e.1 = p : Bool))

/-- Create/overwrite a file (`fopen "wb"` followed by a full `fwrite`). -/
def fsSet (fs : Fs) (p : String) (v : List Nat) : Fs := (p, v) :: fs

/-- Error codes of `vcpak_err_t` (virtual_cpak.h). -/
inductive VcpakErr where
  | ok             -- VCPAK_OK
  | noCpak      -- VCPAK_ERR_NO_CPAK
  | ioError          -- VCPAK_ERR_IO
  | corrupted   -- VCPAK_ERR_CORRUPTED
  | fileNotFound -- VCPAK_ERR_FILE_NOT_FOUND
  | allocFailed       -- VCPAK_ERR_ALLOC
  | dirCreate   -- VCPAK_ERR_DIR_CREATE
  | tooLarge    -- VCPAK_ERR_TOO_LARGE
deriving DecidableEq, Repr

/-- `VCPAK_STATE_MAGIC` (`"VCPS"`). -/
def VCPAK_STATE_MAGIC : Nat := 0x56435053

/-- `CPAK_BANK_SIZE`: one Controller Pak bank, 32 KiB. -/
def CPAK_BANK_SIZE : Nat := 32768

/-- The packed `vcpak_state_t` journal record (virtual_cpak.h). -/
structure VcpakState where
  magic : Nat              -- uint32_t
  game_code : List Nat     -- char[5]
  game_title : List Nat    -- char[21]
  rom_path : List Nat      -- char[256]
  pak_path : List Nat      -- char[256]
  timestamp : Nat          -- uint32_t
  is_dirty : Nat           -- uint8_t
  reserved : List Nat      -- uint8_t[30]
deriving DecidableEq, Repr

/-- `sizeof(vcpak_state_t)` = 4+5+21+256+256+4+1+30 for the packed struct. -/
def VCPAK_STATE_SIZE : Nat := 577

/-- Big-endian byte serialization of a `uint32_t` (MIPS memory order). -/
def be32 (n : Nat) : List Nat :=
  [n / 16777216 % 256, n / 65536 % 256, n / 256 % 256, n % 256]

/-- Read back a big-endian `uint32_t` from the first four bytes. -/
def rd32 (l : List Nat) : Nat :=
  l.getD 0 0 * 16777216 + l.getD 1 0 * 65536 + l.getD 2 0 * 256 + l.getD 3 0

/-- Memory image of a `vcpak_state_t` value, as written by `fwrite`. -/
def encodeState (s : VcpakState) : List Nat :=
  be32 s.magic ++ (s.game_code ++ (s.game_title ++ (s.rom_path ++
    (s.pak_path ++ (be32 s.timestamp ++ (s.is_dirty :: s.reserved))))))

/-- Reinterpretation of raw bytes as a `vcpak_state_t`, as read by `fread`. -/
def decodeState (b : List Nat) : VcpakState where
  magic := rd32 (b.take 4)
  game_code := (b.drop 4).take 5
  game_title := (b.drop 9).take 21
  rom_path := (b.drop 30).take 256
  pak_path := (b.drop 286).take 256
  timestamp := rd32 ((b.drop 542).take 4)
  is_dirty := (b.drop 546).getD 0 0
  reserved := (b.drop 547).take 30

/-- Well-formed record: field widths of the packed struct, integer fields
within their C types' ranges, list fields made of bytes. -/
def WFState (s : VcpakState) : Prop :=
  s.magic < 4294967296 ∧
  s.game_code.length = 5 ∧
  s.game_title.length = 21 ∧
  s.rom_path.length = 256 ∧
  s.pak_path.length = 256 ∧
  s.timestamp < 4294967296 ∧
  s.is_dirty < 256 ∧
  s.reserved.length = 30 ∧
  (∀ b ∈ s.game_code, b < 256) ∧
  (∀ b ∈ s.game_title, b < 256) ∧
  (∀ b ∈ s.rom_path, b < 256) ∧
  (∀ b ∈ s.pak_path, b < 256) ∧
  (∀ b ∈ s.reserved, b < 256)

instance (s : VcpakState) : Decidable (WFState s) := by
  unfold WFState; infer_instance

/-- `vcpak_get_state_path`: `<storage_root>/menu/vcpak_state.dat`
(path joining modelled from the spec, `path.c` is external). -/
def vcpak_get_state_path (storage_pfx : String) : String :=
  storage_pfx ++ "/menu/vcpak_state.dat"

/-- `vcpak_state_save`: open the well-known path for writing and write the
record; `fopen`/full-`fwrite` success is modelled (their failures are
environmental `VCPAK_ERR_IO` paths). -/
def vcpak_state_save (fs : Fs) (storage_pfx : String) (state : VcpakState) :
    VcpakErr × Fs :=
  (VcpakErr.ok, fsSet fs (vcpak_get_state_path storage_pfx) (encodeState state))

/-- `vcpak_state_load`: missing file yields `VCPAK_ERR_FILE_NOT_FOUND`;
a short `fread` (fewer than `sizeof(vcpak_state_t)` bytes available)
yields `VCPAK_ERR_IO`; a magic mismatch yields `VCPAK_ERR_CORRUPTED`. -/
def vcpak_state_load (fs : Fs) (storage_pfx : String) :
    Except VcpakErr VcpakState :=
  match fsGet fs (vcpak_get_state_path storage_pfx) with
  | none => .error .fileNotFound
  | some bytes =>
      if bytes.length < VCPAK_STATE_SIZE then
        .error .ioError
      else
        let st := decodeState bytes
        if st.magic ≠ VCPAK_STATE_MAGIC then .error .corrupted
        else .ok st

/-- `vcpak_state_clear`: remove the record file if it exists; a missing
file is success (`remove` itself modelled as succeeding). -/
def vcpak_state_clear (fs : Fs) (storage_pfx : String) : VcpakErr × Fs :=
  match fsGet fs (vcpak_get_state_path storage_pfx) with
  | some _ => (VcpakErr.ok, fsErase fs (vcpak_get_state_path storage_pfx))
  | none => (VcpakErr.ok, fs)

/-- `vcpak_state_is_dirty`: a successful load with a nonzero dirty flag. -/
def vcpak_state_is_dirty (fs : Fs) (storage_pfx : String) : Bool :=
  match vcpak_state_load fs storage_pfx with
  | .ok st => st.is_dirty ≠ 0
  | .error _ => false

/-- A concrete journal record with zeroed string fields, used to
evaluate the journal operations at explicit inputs. -/
def mkTestState (magic timestamp dirty : Nat) : VcpakState where
  magic := magic
  game_code := List.replicate 5 0
  game_title := List.replicate 21 0
  rom_path := List.replicate 256 0
  pak_path := List.replicate 256 0
  timestamp := timestamp
  is_dirty := dirty
  reserved := List.replicate 30 0

/-!
Image codec: `vcpak_create_empty` and its checksum helpers.
-/

/-- Overwrite `src.length` bytes of `buf` starting at offset `off`
(the effect of `memcpy(&buf[off], src, src.length)`). -/
def writeBytes (buf : List Nat) (off : Nat) (src : List Nat) : List Nat :=
  buf.take off ++ src ++ buf.drop (off + src.length)

/-- `vcpak_calc_id_checksum`: sum the 14 big-endian 16-bit words of the
first 28 bytes; checksum1 is the low 16 bits of the sum (`sum & 0xFFFF`),
checksum2 is the `uint16_t` value of `0xFFF2 - checksum1` (C `int`
subtraction truncated to 16 bits on assignment). -/
def vcpak_calc_id_checksum (id_sector : List Nat) : Nat × Nat :=
  let sum := (List.range 14).foldl
    (fun acc i => acc + (id_sector.getD (i * 2) 0 * 256 + id_sector.getD (i * 2 + 1) 0)) 0
  let c1 := sum % 65536
  let c2 := (((0xFFF2 : Int) - (c1 : Int)) % 65536).toNat
  (c1, c2)

/-- `vcpak_calc_fat_checksum`: `uint8_t` sum of the bank and page bytes of
FAT entries `start_idx .. 127` (wrapping mod 256 at each addition). -/
def vcpak_calc_fat_checksum (fat_page : List Nat) (start_idx : Nat) : Nat :=
  ((List.range 128).drop start_idx).foldl
    (fun acc i => (acc + fat_page.getD (i * 2) 0 + fat_page.getD (i * 2 + 1) 0) % 256) 0

/-- The 32-byte ID sector before the checksum bytes are filled in:
`"N64MENUVPAK"`, zero padding, device-id `0x0001` (big-endian) at bytes
24-25, bank-size `0x0100` (big-endian) at bytes 26-27, zeros at 28-31. -/
def id_sector_pre : List Nat :=
  strBytes "N64MENUVPAK" ++ List.replicate 13 0 ++
    [0x00, 0x01, 0x01, 0x00] ++ List.replicate 4 0

/-- The finished ID sector: checksums of the first 28 bytes stored
big-endian at bytes 28-31. -/
def id_sector : List Nat :=
  let c := vcpak_calc_id_checksum id_sector_pre
  id_sector_pre.take 28 ++ [c.1 / 256, c.1 % 256, c.2 / 256, c.2 % 256]

/-- The 256-byte FAT page before the checksum byte is stored: entries 0-4
are `0x0000` (entry 0 is the checksum placeholder, 1-4 are reserved),
entries 5-127 are `0x0003` (free). -/
def fat_page_pre : List Nat :=
  List.replicate 10 0 ++ (List.replicate 123 [0x00, 0x03]).flatten

/-- The finished FAT page: the checksum over entries 5..127 is stored in
the low byte of entry 0 (`fat_page[1]`). -/
def fat_page : List Nat :=
  writeBytes fat_page_pre 1 [vcpak_calc_fat_checksum fat_page_pre 5]

/-- The 32 KiB buffer `vcpak_create_empty` writes: zero-filled, the ID
sector copied to offsets 0x20, 0x60, 0x80, 0xC0, the FAT page copied to
0x100 (primary) and 0x200 (backup); the note table and data pages stay
zero. -/
def vcpak_create_empty_data : List Nat :=
  writeBytes (writeBytes (writeBytes (writeBytes (writeBytes (writeBytes
    (List.replicate CPAK_BANK_SIZE 0)
    0x20 id_sector) 0x60 id_sector) 0x80 id_sector) 0xC0 id_sector)
    0x100 fat_page) 0x200 fat_page

/-- `vcpak_create_empty`: build the formatted empty image and write it to
`pak_path` (allocation, `fopen` and the full `fwrite` modelled as
succeeding; their failures are environmental error paths). -/
def vcpak_create_empty (fs : Fs) (pak_path : String) : VcpakErr × Fs :=
  (VcpakErr.ok, fsSet fs pak_path vcpak_create_empty_data)

/-- Read `len` bytes at offset `off` of a byte buffer. -/
def readSlice (buf : List Nat) (off len : Nat) : List Nat :=
  (buf.drop off).take len

/-!
Pak catalog: `vcpak_list_paks` and `vcpak_generate_filename`.
Filenames and paths are byte strings (`List Nat`); the directory scan
(`dir_findfirst`/`dir_findnext`) is an external filesystem primitive and
enters the model as the list of names it yields, `file_exists` as a
boolean predicate on names in the per-game directory.
-/

/-- Lowercase a byte as C `tolower` does on ASCII. -/
def lowerByte (c : Nat) : Nat :=
  if 0x41 ≤ c ∧ c ≤ 0x5A then c + 0x20 else c

/-- `strcasecmp(a, b) == 0`. -/
def strcasecmpEq (a b : List Nat) : Bool :=
  a.map lowerByte = b.map lowerByte

/-- Bytes of the recognized image extension `".pak"`. -/
def pakExt : List Nat := strBytes ".pak"

/-- The filter of the directory scan: `strrchr(name, '.')` finds the last
dot, and the extension from it must equal `".pak"` case-insensitively. -/
def hasPakExt (name : List Nat) : Bool :=
  match name.reverse.findIdx? (fun c => c = 0x2E) with
  | none => false
  | some k => strcasecmpEq (name.drop (name.length - (k + 1))) pakExt

/-- One `vcpak_entry_t`. -/
structure VcpakEntry where
  filename : List Nat      -- char[64]
  full_path : List Nat     -- char[256]
  is_last_used : Bool
deriving DecidableEq, Repr, Inhabited

/-- One `vcpak_list_t`. `count` is the number of entries; `selected` is
`-1` for the "create new" sentinel. -/
structure VcpakList where
  entries : List VcpakEntry
  count : Nat
  selected : Int
  game_code : List Nat     -- char[5]
deriving DecidableEq, Repr

/-- The per-game directory `<storage_root>/cpak_saves/<4-char-code>`
(path joining modelled from the spec, `path.c` is external). -/
def vcpak_game_dir (storage_pfx game_code : List Nat) : List Nat :=
  storage_pfx ++ strBytes "/cpak_saves/" ++ game_code.take 4

/-- The entry `vcpak_list_paks` builds for directory name `n`:
`strncpy` truncates the filename to 63 bytes and the full path to 255;
the last-used mark requires a non-empty `last_used_filename` equal
(`strcmp`) to the truncated filename. -/
def vcpak_mkEntry (dir_path last_used n : List Nat) : VcpakEntry where
  filename := n.take 63
  full_path := (dir_path ++ 0x2F :: n).take 255
  is_last_used := decide (last_used ≠ []) && decide (n.take 63 = last_used)

/-- The enumeration loop of `vcpak_list_paks`: walks the directory names,
keeps those with a `.pak` extension, counts them, and records the index
of the (last) entry matching `last_used_filename` in the selection
accumulator (initially `-1`). -/
def pakScan (dir_path last_used : List Nat) :
    List (List Nat) → Nat → Int → List VcpakEntry × Int
  | [], _, sel => ([], sel)
  | n :: rest, cnt, sel =>
    if hasPakExt n then
      let e := vcpak_mkEntry dir_path last_used n
      let r := pakScan dir_path last_used rest (cnt + 1)
        (if e.is_last_used then (cnt : Int) else sel)
      (e :: r.1, r.2)
    else
      pakScan dir_path last_used rest cnt sel

/-- `vcpak_list_paks`.  `dir_exists` is the `directory_exists` probe and
`dir_names` the names the directory scan yields (in scan order); a NULL
`last_used_filename` behaves exactly like the empty string and is
modelled as `[]`.  The initial 16-entry `malloc` is modelled as
succeeding (its failure is the environmental `VCPAK_ERR_ALLOC` path). -/
def vcpak_list_paks (storage_pfx game_code : List Nat) (dir_exists : Bool)
    (dir_names : List (List Nat)) (last_used_filename : List Nat) :
    VcpakErr × VcpakList :=
  if !dir_exists then
    (VcpakErr.ok,
      { entries := [], count := 0, selected := -1, game_code := game_code.take 4 })
  else
    let r := pakScan (vcpak_game_dir storage_pfx game_code) last_used_filename
      dir_names 0 (-1)
    (VcpakErr.ok,
      { entries := r.1
        count := r.1.length
        selected := if r.2 < 0 ∧ 0 < r.1.length then 0 else r.2
        game_code := game_code.take 4 })

/-- Is a byte an ASCII letter or digit (the characters
`vcpak_generate_filename` keeps from the title)? -/
def isAlnumByte (c : Nat) : Bool :=
  (0x41 ≤ c ∧ c ≤ 0x5A) ∨ (0x61 ≤ c ∧ c ≤ 0x7A) ∨ (0x30 ≤ c ∧ c ≤ 0x39)

/-- The title-cleaning loop of `vcpak_generate_filename`:
`for (i = 0; i < 20 && game_title[i] != 0 && j < 20; i++)` keeping only
ASCII letters and digits.  `fuel` counts the remaining values of `i`
(starting at 20), `j` the kept characters. -/
def cleanTitleGo (game_title : List Nat) : Nat → Nat → Nat → List Nat
  | 0, _, _ => []
  | fuel + 1, i, j =>
    if game_title.getD i 0 = 0 then []
    else if ¬ j < 20 then []
    else if isAlnumByte (game_title.getD i 0) then
      game_title.getD i 0 :: cleanTitleGo game_title fuel (i + 1) (j + 1)
    else
      cleanTitleGo game_title fuel (i + 1) j

/-- The cleaned title stem (at most the first 20 source bytes). -/
def cleanTitle (game_title : List Nat) : List Nat :=
  cleanTitleGo game_title 20 0 0

/-- The stem used for generated names: the cleaned title, or the 4-byte
game code when the cleaned title is empty. -/
def vcpak_stem (game_code game_title : List Nat) : List Nat :=
  let ct := cleanTitle game_title
  if ct = [] then game_code.take 4 else ct

/-- `snprintf("%03d")` for the probe counter (1 ≤ i ≤ 999: exactly three
zero-padded decimal digits). -/
def pad3 (i : Nat) : List Nat :=
  [0x30 + i / 100 % 10, 0x30 + i / 10 % 10, 0x30 + i % 10]

/-- `"<stem>_%03d.pak"`. -/
def pakNumName (stem : List Nat) (i : Nat) : List Nat :=
  stem ++ 0x5F :: (pad3 i ++ pakExt)

/-- Decimal digit bytes of `n` (`%ld` rendering), by fuel recursion. -/
def decDigitsGo : Nat → Nat → List Nat
  | 0, _ => []
  | fuel + 1, n =>
    if n < 10 then [0x30 + n]
    else decDigitsGo fuel (n / 10) ++ [0x30 + n % 10]

/-- Decimal rendering of a nonnegative `%ld` value. -/
def decDigits (n : Nat) : List Nat := decDigitsGo (n + 1) n

/-- `"<stem>_<unix-timestamp>.pak"`, the fallback name. -/
def pakTimeName (stem : List Nat) (now : Nat) : List Nat :=
  stem ++ 0x5F :: (decDigits now ++ pakExt)

/-- The probe loop of `vcpak_generate_filename`: try
`<stem>_001.pak`, `<stem>_002.pak`, ... and return the first name for
which `file_exists` is false; `fuel` counts the remaining probes
(999 at the start). -/
def probeGo (file_exists : List Nat → Bool) (stem : List Nat) :
    Nat → Nat → Option (List Nat)
  | _, 0 => none
  | i, fuel + 1 =>
    if file_exists (pakNumName stem i) then probeGo file_exists stem (i + 1) fuel
    else some (pakNumName stem i)

/-- `vcpak_generate_filename`: probe `<stem>_001.pak` ... `<stem>_999.pak`
for the first non-existing name; when all 999 exist, fall back to the
timestamp name.  `file_exists` is the external existence check inside
the per-game directory and `now` the `time(NULL)` value. -/
def vcpak_generate_filename (file_exists : List Nat → Bool)
    (game_code game_title : List Nat) (now : Nat) : List Nat :=
  let stem := vcpak_stem game_code game_title
  match probeGo file_exists stem 1 999 with
  | some nm => nm
  | none => pakTimeName stem now

/-!
Startup recovery (`view_startup_init` in views/startup.c) and the bits of
the recovery view the claims touch.
-/

/-- Menu modes that `view_startup_init` can select. -/
inductive MenuMode where
  | modeStartup
  | modeVcpakRecovery
  | modeBrowser
  | modeCredits
deriving DecidableEq, Repr

/-- `view_startup_init` (ROM-autoload block compiled out): when the
virtual-cpak feature is enabled and the journal loads with a nonzero
dirty flag, either auto-back-up (physical pak present at port 0) or
switch to the recovery view.  `backup` stands for
`vcpak_backup_from_physical(dirty_state.pak_path, 0)`: external device
I/O returning its error code and the filesystem after the attempt.
The source clears the journal after the backup attempt whether or not
the backup succeeded (the error is only logged). -/
def view_startup_init (fs : Fs) (storage_pfx : String)
    (virtual_cpak_enabled first_run has_cpak0 : Bool)
    (backup : Fs → VcpakErr × Fs) : Fs × MenuMode :=
  let fallthrough := fun (f : Fs) =>
    (f, if first_run then MenuMode.modeCredits else MenuMode.modeBrowser)
  if virtual_cpak_enabled then
    match vcpak_state_load fs storage_pfx with
    | .ok dirty_state =>
      if dirty_state.is_dirty ≠ 0 then
        if has_cpak0 then
          let r := backup fs
          let c := vcpak_state_clear r.2 storage_pfx
          fallthrough c.2
        else
          (fs, MenuMode.modeVcpakRecovery)
      else fallthrough fs
    | .error _ => fallthrough fs
  else fallthrough fs

/-!
Helper lemmas.
-/

theorem fsGet_fsSet (fs : Fs) (p : String) (v : List Nat) :
    fsGet (fsSet fs p v) p = some v := by
  simp [fsGet, fsSet]

theorem fsGet_fsErase_self (fs : Fs) (p : String) :
    fsGet (fsErase fs p) p = none := by
  induction fs with
  | nil => rfl
  | cons e rest ih =>
      by_cases h : e.1 = p <;>
        simp [fsErase, List.filter_cons, fsGet, h] at ih ⊢ <;>
        simpa [fsErase] using ih

theorem rd32_be32 (n : Nat) (h : n < 4294967296) : rd32 (be32 n) = n := by
  simp [rd32, be32]
  omega

theorem decodeState_encodeState (s : VcpakState) (h : WFState s) :
    decodeState (encodeState s) = s := by
  obtain ⟨hm, hgc, hgt, hrp, hpp, hts, hd, hres, -, -, -, -, -⟩ := h
  have len4 : (be32 s.magic).length = 4 := by simp [be32]
  have len4ts : (be32 s.timestamp).length = 4 := by simp [be32]
  have t4 : (encodeState s).take 4 = be32 s.magic := List.take_left' len4
  have e4 : (encodeState s).drop 4 = s.game_code ++ (s.game_title ++ (s.rom_path ++
      (s.pak_path ++ (be32 s.timestamp ++ (s.is_dirty :: s.reserved))))) :=
    List.drop_left' len4
  have e9 : (encodeState s).drop 9 = s.game_title ++ (s.rom_path ++
      (s.pak_path ++ (be32 s.timestamp ++ (s.is_dirty :: s.reserved)))) := by
    rw [show (9 : Nat) = 4 + 5 from rfl, ← List.drop_drop, e4]
    exact List.drop_left' hgc
  have e30 : (encodeState s).drop 30 = s.rom_path ++
      (s.pak_path ++ (be32 s.timestamp ++ (s.is_dirty :: s.reserved))) := by
    rw [show (30 : Nat) = 9 + 21 from rfl, ← List.drop_drop, e9]
    exact List.drop_left' hgt
  have e286 : (encodeState s).drop 286 = s.pak_path ++
      (be32 s.timestamp ++ (s.is_dirty :: s.reserved)) := by
    rw [show (286 : Nat) = 30 + 256 from rfl, ← List.drop_drop, e30]
    exact List.drop_left' hrp
  have e542 : (encodeState s).drop 542 = be32 s.timestamp ++
      (s.is_dirty :: s.reserved) := by
    rw [show (542 : Nat) = 286 + 256 from rfl, ← List.drop_drop, e286]
    exact List.drop_left' hpp
  have e546 : (encodeState s).drop 546 = s.is_dirty :: s.reserved := by
    rw [show (546 : Nat) = 542 + 4 from rfl, ← List.drop_drop, e542]
    exact List.drop_left' len4ts
  have e547 : (encodeState s).drop 547 = s.reserved := by
    rw [show (547 : Nat) = 546 + 1 from rfl, ← List.drop_drop, e546]
    rfl
  cases s with
  | mk m gc gt rp pp ts d res =>
    simp only [decodeState]
    simp only at t4 e4 e9 e30 e286 e542 e546 e547 hm hgc hgt hrp hpp hts hd hres
    congr 1
    · rw [t4]; exact rd32_be32 m hm
    · rw [e4]; exact List.take_left' hgc
    · rw [e9]; exact List.take_left' hgt
    · rw [e30]; exact List.take_left' hrp
    · rw [e286]; exact List.take_left' hpp
    · rw [e542, List.take_left' len4ts]; exact rd32_be32 ts hts
    · rw [e546]; rfl
    · rw [e547, ← hres, List.take_length]

theorem length_encodeState (s : VcpakState) (h : WFState s) :
    (encodeState s).length = VCPAK_STATE_SIZE := by
  obtain ⟨-, hgc, hgt, hrp, hpp, -, -, hres, -, -, -, -, -⟩ := h
  simp [encodeState, be32, VCPAK_STATE_SIZE, hgc, hgt, hrp, hpp, hres]

theorem state_clear_then_load (fs : Fs) (p : String) :
    vcpak_state_load (vcpak_state_clear fs p).2 p
      = .error VcpakErr.fileNotFound := by
  cases hfg : fsGet fs (vcpak_get_state_path p) with
  | none => simp [vcpak_state_clear, vcpak_state_load, hfg]
  | some v =>
      simp [vcpak_state_clear, vcpak_state_load, hfg, fsGet_fsErase_self]

theorem state_load_of_encoded (fs : Fs) (p : String) (s : VcpakState)
    (hwf : WFState s) (hm : s.magic = VCPAK_STATE_MAGIC)
    (hget : fsGet fs (vcpak_get_state_path p) = some (encodeState s)) :
    vcpak_state_load fs p = .ok s := by
  simp [vcpak_state_load, hget, length_encodeState s hwf,
    decodeState_encodeState s hwf, hm]

/-!
Claim theorems: Session Journal (C2, C6, C9, C10).
-/

/-- Claim C2, counterexample to the claim as stated: a journal file of
only four bytes (shorter than the 577-byte record) makes
`vcpak_state_load` return the I/O error `VCPAK_ERR_IO`, not the
`VCPAK_ERR_CORRUPTED` error the claim promises for a short read. -/
theorem c2_short_read_is_io_error :
    vcpak_state_load [(vcpak_get_state_path "sd:", [0, 0, 0, 0])] "sd:"
        = .error VcpakErr.ioError ∧
      VcpakErr.ioError ≠ VcpakErr.corrupted := by
  exact ⟨rfl, by decide⟩

/-- Claim C2 (amended): `vcpak_state_load` returns
`VCPAK_ERR_FILE_NOT_FOUND` when the journal file is absent,
`VCPAK_ERR_IO` when fewer bytes than the fixed record size are read,
`VCPAK_ERR_CORRUPTED` when the full record is read but the magic field
differs from `VCPAK_STATE_MAGIC`, and never returns success on a short
read or a bad magic. -/
theorem c2_state_load_errors (fs : Fs) (p : String) :
    (fsGet fs (vcpak_get_state_path p) = none →
      vcpak_state_load fs p = .error VcpakErr.fileNotFound) ∧
    (∀ bytes, fsGet fs (vcpak_get_state_path p) = some bytes →
      bytes.length < VCPAK_STATE_SIZE →
      vcpak_state_load fs p = .error VcpakErr.ioError) ∧
    (∀ bytes, fsGet fs (vcpak_get_state_path p) = some bytes →
      VCPAK_STATE_SIZE ≤ bytes.length →
      (decodeState bytes).magic ≠ VCPAK_STATE_MAGIC →
      vcpak_state_load fs p = .error VcpakErr.corrupted) ∧
    (∀ s, vcpak_state_load fs p = .ok s →
      ∃ bytes, fsGet fs (vcpak_get_state_path p) = some bytes ∧
        VCPAK_STATE_SIZE ≤ bytes.length ∧ s.magic = VCPAK_STATE_MAGIC) := by
  refine ⟨?_, ?_, ?_, ?_⟩
  · intro h; simp [vcpak_state_load, h]
  · intro bytes hb hlen; simp [vcpak_state_load, hb, hlen]
  · intro bytes hb hlen hmg
    simp [vcpak_state_load, hb, Nat.not_lt.mpr hlen, hmg]
  · intro s hs
    unfold vcpak_state_load at hs
    split at hs
    · exact absurd hs (by simp)
    · next bytes hfg =>
        split at hs
        · exact absurd hs (by simp)
        · next h1 =>
            simp only at hs
            split at hs
            · exact absurd hs (by simp)
            · next h2 =>
                simp only [Except.ok.injEq] at hs
                exact ⟨bytes, hfg, Nat.not_lt.mp h1,
                  by rw [← hs]; exact not_ne_iff.mp h2⟩

/-- Witness for C2 (amended), exercising all four branches at concrete
filesystems: the empty filesystem, a 4-byte journal file, an all-zero
577-byte journal file (bad magic), and a valid saved record. -/
theorem c2_state_load_errors_witness :
    vcpak_state_load [] "sd:" = .error VcpakErr.fileNotFound ∧
    vcpak_state_load [(vcpak_get_state_path "sd:", [0, 0, 0, 0])] "sd:"
      = .error VcpakErr.ioError ∧
    vcpak_state_load [(vcpak_get_state_path "sd:", List.replicate 577 0)] "sd:"
      = .error VcpakErr.corrupted ∧
    (mkTestState VCPAK_STATE_MAGIC 0 0).magic = VCPAK_STATE_MAGIC := by
  have hload : vcpak_state_load
      [(vcpak_get_state_path "sd:", encodeState (mkTestState VCPAK_STATE_MAGIC 0 0))]
      "sd:" = .ok (mkTestState VCPAK_STATE_MAGIC 0 0) :=
    state_load_of_encoded _ "sd:" _ (by decide) (by decide) (by simp [fsGet])
  refine ⟨(c2_state_load_errors [] "sd:").1 rfl,
    (c2_state_load_errors _ "sd:").2.1 [0, 0, 0, 0] rfl (by decide),
    (c2_state_load_errors _ "sd:").2.2.1 (List.replicate 577 0) rfl (by decide)
      (by decide), ?_⟩
  obtain ⟨bytes, hb, -, hm⟩ := (c2_state_load_errors _ "sd:").2.2.2
    (mkTestState VCPAK_STATE_MAGIC 0 0) hload
  exact hm

/-- Claim C6: saving a well-formed record whose magic equals
`VCPAK_STATE_MAGIC` and then loading from the same storage root (with no
intervening operation) succeeds and returns the identical record. -/
theorem c6_save_load_roundtrip (fs : Fs) (p : String) (s : VcpakState)
    (hwf : WFState s) (hm : s.magic = VCPAK_STATE_MAGIC) :
    (vcpak_state_save fs p s).1 = VcpakErr.ok ∧
    vcpak_state_load (vcpak_state_save fs p s).2 p = .ok s := by
  refine ⟨rfl, ?_⟩
  have hget : fsGet (vcpak_state_save fs p s).2 (vcpak_get_state_path p)
      = some (encodeState s) := fsGet_fsSet fs (vcpak_get_state_path p) _
  have hlen := length_encodeState s hwf
  have hdec := decodeState_encodeState s hwf
  simp [vcpak_state_load, hget, hlen, hdec, hm]

/-- Witness for C6 at a concrete record and the empty filesystem. -/
theorem c6_save_load_roundtrip_witness :
    (vcpak_state_save [] "sd:" (mkTestState VCPAK_STATE_MAGIC 123456 1)).1
      = VcpakErr.ok ∧
    vcpak_state_load
      (vcpak_state_save [] "sd:" (mkTestState VCPAK_STATE_MAGIC 123456 1)).2 "sd:"
      = .ok (mkTestState VCPAK_STATE_MAGIC 123456 1) :=
  c6_save_load_roundtrip [] "sd:" (mkTestState VCPAK_STATE_MAGIC 123456 1)
    (by decide) (by decide)

/-- Claim C9: `vcpak_state_clear` always succeeds, is idempotent (a
missing file is treated as already clean and the filesystem is left
unchanged), and after any clear a `vcpak_state_load` fails with
`VCPAK_ERR_FILE_NOT_FOUND`. -/
theorem c9_state_clear_idempotent (fs : Fs) (p : String) :
    (vcpak_state_clear fs p).1 = VcpakErr.ok ∧
    vcpak_state_clear (vcpak_state_clear fs p).2 p
      = (VcpakErr.ok, (vcpak_state_clear fs p).2) ∧
    vcpak_state_load (vcpak_state_clear fs p).2 p
      = .error VcpakErr.fileNotFound ∧
    (fsGet fs (vcpak_get_state_path p) = none →
      (vcpak_state_clear fs p).2 = fs) := by
  cases hfg : fsGet fs (vcpak_get_state_path p) with
  | none =>
      refine ⟨by simp [vcpak_state_clear, hfg], ?_, ?_, fun _ => by
        simp [vcpak_state_clear, hfg]⟩
      · simp [vcpak_state_clear, hfg]
      · simp [vcpak_state_clear, vcpak_state_load, hfg]
  | some v =>
      have hafter : fsGet (fsErase fs (vcpak_get_state_path p))
          (vcpak_get_state_path p) = none := fsGet_fsErase_self fs _
      refine ⟨by simp [vcpak_state_clear, hfg], ?_, ?_,
        fun hn => absurd hn (by simp)⟩
      · simp [vcpak_state_clear, hfg, hafter]
      · simp [vcpak_state_clear, vcpak_state_load, hfg, hafter]

/-- Witness for C9 at a filesystem holding a journal record and at the
empty filesystem (for the missing-file idempotence hypothesis). -/
theorem c9_state_clear_idempotent_witness :
    vcpak_state_load
      (vcpak_state_clear [(vcpak_get_state_path "sd:", List.replicate 577 0)]
        "sd:").2 "sd:" = .error VcpakErr.fileNotFound ∧
    (vcpak_state_clear [] "sd:").2 = [] :=
  ⟨(c9_state_clear_idempotent
      [(vcpak_get_state_path "sd:", List.replicate 577 0)] "sd:").2.2.1,
    (c9_state_clear_idempotent [] "sd:").2.2.2 rfl⟩

/-- Claim C10: `vcpak_state_is_dirty` is true exactly when the journal
file exists, holds at least the full fixed-size record, the record's
magic equals `VCPAK_STATE_MAGIC`, and its dirty flag is nonzero; every
load failure (missing file, short read, corrupted magic) therefore
yields `false` and a corrupted journal is silently treated as clean. -/
theorem c10_is_dirty_characterization (fs : Fs) (p : String) :
    vcpak_state_is_dirty fs p = true ↔
      ∃ bytes, fsGet fs (vcpak_get_state_path p) = some bytes ∧
        VCPAK_STATE_SIZE ≤ bytes.length ∧
        (decodeState bytes).magic = VCPAK_STATE_MAGIC ∧
        (decodeState bytes).is_dirty ≠ 0 := by
  constructor
  · intro h
    unfold vcpak_state_is_dirty vcpak_state_load at h
    split at h
    · next st hl =>
        split at hl
        · exact absurd hl (by simp)
        · next bytes hfg =>
            split at hl
            · exact absurd hl (by simp)
            · next h1 =>
                simp only at hl
                split at hl
                · exact absurd hl (by simp)
                · next h2 =>
                    simp only [Except.ok.injEq] at hl
                    refine ⟨bytes, hfg, Nat.not_lt.mp h1, not_ne_iff.mp h2, ?_⟩
                    simp only [decide_eq_true_eq] at h
                    rw [hl]
                    exact h
    · exact absurd h (by simp)
  · rintro ⟨bytes, hb, hlen, hmg, hd⟩
    simp [vcpak_state_is_dirty, vcpak_state_load, hb, Nat.not_lt.mpr hlen,
      hmg, hd]

/-!
Image codec lemmas and claims C3, C5.
-/

theorem length_writeBytes (buf src : List Nat) (off : Nat)
    (h : off + src.length ≤ buf.length) :
    (writeBytes buf off src).length = buf.length := by
  simp [writeBytes]
  omega

theorem readSlice_writeBytes_self (buf src : List Nat) (off : Nat)
    (h : off ≤ buf.length) :
    readSlice (writeBytes buf off src) off src.length = src := by
  unfold readSlice writeBytes
  have hl : (buf.take off).length = off := by simp [List.length_take]; omega
  rw [List.append_assoc, List.drop_left' hl]
  exact List.take_left src _

theorem readSlice_writeBytes_left (buf src : List Nat) (off len off2 : Nat)
    (h : off + len ≤ off2) (h2 : off2 ≤ buf.length) :
    readSlice (writeBytes buf off2 src) off len = readSlice buf off len := by
  unfold readSlice writeBytes
  have hlt : (buf.take off2).length = off2 := by simp [List.length_take]; omega
  rw [List.append_assoc, List.drop_append_eq_append_drop, hlt,
    show off - off2 = 0 from by omega, List.drop_zero,
    List.take_append_of_le_length
      (by rw [List.length_drop, hlt]; omega),
    List.drop_take, List.take_take, min_eq_left (by omega)]

theorem length_writeBytes_bank (buf src : List Nat) (off : Nat)
    (hb : buf.length = 32768) (h : off + src.length ≤ 32768) :
    (writeBytes buf off src).length = 32768 := by
  rw [length_writeBytes buf src off (by omega), hb]

theorem id_sector_length : id_sector.length = 32 := by decide

theorem fat_page_length : fat_page.length = 256 := by decide

theorem create_empty_len1 :
    (writeBytes (List.replicate CPAK_BANK_SIZE 0) 0x20 id_sector).length
      = 32768 :=
  length_writeBytes_bank _ _ _ (by rw [List.length_replicate]; rfl)
    (by rw [id_sector_length]; norm_num)

theorem create_empty_len2 :
    (writeBytes (writeBytes (List.replicate CPAK_BANK_SIZE 0) 0x20 id_sector)
      0x60 id_sector).length = 32768 :=
  length_writeBytes_bank _ _ _ create_empty_len1 (by rw [id_sector_length]; norm_num)

theorem create_empty_len3 :
    (writeBytes (writeBytes (writeBytes (List.replicate CPAK_BANK_SIZE 0)
      0x20 id_sector) 0x60 id_sector) 0x80 id_sector).length = 32768 :=
  length_writeBytes_bank _ _ _ create_empty_len2 (by rw [id_sector_length]; norm_num)

theorem create_empty_len4 :
    (writeBytes (writeBytes (writeBytes (writeBytes
      (List.replicate CPAK_BANK_SIZE 0) 0x20 id_sector) 0x60 id_sector)
      0x80 id_sector) 0xC0 id_sector).length = 32768 :=
  length_writeBytes_bank _ _ _ create_empty_len3 (by rw [id_sector_length]; norm_num)

theorem create_empty_len5 :
    (writeBytes (writeBytes (writeBytes (writeBytes (writeBytes
      (List.replicate CPAK_BANK_SIZE 0) 0x20 id_sector) 0x60 id_sector)
      0x80 id_sector) 0xC0 id_sector) 0x100 fat_page).length = 32768 :=
  length_writeBytes_bank _ _ _ create_empty_len4 (by rw [fat_page_length]; norm_num)

theorem create_empty_id_slices : ∀ off, off = 0x20 ∨ off = 0x60 ∨ off = 0x80 ∨
    off = 0xC0 → readSlice vcpak_create_empty_data off 32 = id_sector := by
  have h20 : readSlice vcpak_create_empty_data 0x20 32 = id_sector := by
    unfold vcpak_create_empty_data
    rw [readSlice_writeBytes_left _ _ _ _ _ (by norm_num)
        (by rw [create_empty_len5]; norm_num),
      readSlice_writeBytes_left _ _ _ _ _ (by norm_num)
        (by rw [create_empty_len4]; norm_num),
      readSlice_writeBytes_left _ _ _ _ _ (by norm_num)
        (by rw [create_empty_len3]; norm_num),
      readSlice_writeBytes_left _ _ _ _ _ (by norm_num)
        (by rw [create_empty_len2]; norm_num),
      readSlice_writeBytes_left _ _ _ _ _ (by norm_num)
        (by rw [create_empty_len1]; norm_num)]
    have := readSlice_writeBytes_self (List.replicate CPAK_BANK_SIZE 0)
      id_sector 0x20 (by rw [List.length_replicate]; norm_num [CPAK_BANK_SIZE])
    rwa [id_sector_length] at this
  have h60 : readSlice vcpak_create_empty_data 0x60 32 = id_sector := by
    unfold vcpak_create_empty_data
    rw [readSlice_writeBytes_left _ _ _ _ _ (by norm_num)
        (by rw [create_empty_len5]; norm_num),
      readSlice_writeBytes_left _ _ _ _ _ (by norm_num)
        (by rw [create_empty_len4]; norm_num),
      readSlice_writeBytes_left _ _ _ _ _ (by norm_num)
        (by rw [create_empty_len3]; norm_num),
      readSlice_writeBytes_left _ _ _ _ _ (by norm_num)
        (by rw [create_empty_len2]; norm_num)]
    have := readSlice_writeBytes_self
      (writeBytes (List.replicate CPAK_BANK_SIZE 0) 0x20 id_sector)
      id_sector 0x60 (by rw [create_empty_len1]; norm_num)
    rwa [id_sector_length] at this
  have h80 : readSlice vcpak_create_empty_data 0x80 32 = id_sector := by
    unfold vcpak_create_empty_data
    rw [readSlice_writeBytes_left _ _ _ _ _ (by norm_num)
        (by rw [create_empty_len5]; norm_num),
      readSlice_writeBytes_left _ _ _ _ _ (by norm_num)
        (by rw [create_empty_len4]; norm_num),
      readSlice_writeBytes_left _ _ _ _ _ (by norm_num)
        (by rw [create_empty_len3]; norm_num)]
    have := readSlice_writeBytes_self
      (writeBytes (writeBytes (List.replicate CPAK_BANK_SIZE 0) 0x20 id_sector)
        0x60 id_sector)
      id_sector 0x80 (by rw [create_empty_len2]; norm_num)
    rwa [id_sector_length] at this
  have hC0 : readSlice vcpak_create_empty_data 0xC0 32 = id_sector := by
    unfold vcpak_create_empty_data
    rw [readSlice_writeBytes_left _ _ _ _ _ (by norm_num)
        (by rw [create_empty_len5]; norm_num),
      readSlice_writeBytes_left _ _ _ _ _ (by norm_num)
        (by rw [create_empty_len4]; norm_num)]
    have := readSlice_writeBytes_self
      (writeBytes (writeBytes (writeBytes (List.replicate CPAK_BANK_SIZE 0)
        0x20 id_sector) 0x60 id_sector) 0x80 id_sector)
      id_sector 0xC0 (by rw [create_empty_len3]; norm_num)
    rwa [id_sector_length] at this
  rintro off (rfl | rfl | rfl | rfl)
  · exact h20
  · exact h60
  · exact h80
  · exact hC0

/-- Claim C3: in the image built by `vcpak_create_empty`, the 32-byte ID
sector appears byte-identically at offsets 0x20, 0x60, 0x80 and 0xC0 of
bank 0, and its stored checksums satisfy: checksum1 equals the sum of
the 14 big-endian 16-bit words of bytes 0-27 reduced mod 2^16, checksum2
equals (0xFFF2 - checksum1) mod 2^16, both stored big-endian in bytes
28-31. -/
theorem c3_id_sector_copies_and_checksums :
    readSlice vcpak_create_empty_data 0x20 32 = id_sector ∧
    readSlice vcpak_create_empty_data 0x60 32 = id_sector ∧
    readSlice vcpak_create_empty_data 0x80 32 = id_sector ∧
    readSlice vcpak_create_empty_data 0xC0 32 = id_sector ∧
    id_sector.getD 28 0 =
      ((List.range 14).map
        (fun i => id_sector.getD (2 * i) 0 * 256 + id_sector.getD (2 * i + 1) 0)).sum
        % 65536 / 256 ∧
    id_sector.getD 29 0 =
      ((List.range 14).map
        (fun i => id_sector.getD (2 * i) 0 * 256 + id_sector.getD (2 * i + 1) 0)).sum
        % 65536 % 256 ∧
    id_sector.getD 30 0 =
      ((((0xFFF2 : Int) -
          (((List.range 14).map (fun i =>
              id_sector.getD (2 * i) 0 * 256 + id_sector.getD (2 * i + 1) 0)).sum
            % 65536 : Nat)) % 65536).toNat) / 256 ∧
    id_sector.getD 31 0 =
      ((((0xFFF2 : Int) -
          (((List.range 14).map (fun i =>
              id_sector.getD (2 * i) 0 * 256 + id_sector.getD (2 * i + 1) 0)).sum
            % 65536 : Nat)) % 65536).toNat) % 256 := by
  refine ⟨create_empty_id_slices 0x20 (by norm_num),
    create_empty_id_slices 0x60 (by norm_num),
    create_empty_id_slices 0x80 (by norm_num),
    create_empty_id_slices 0xC0 (by norm_num), ?_, ?_, ?_, ?_⟩ <;> decide

/-- Claim C5: in the image built by `vcpak_create_empty`, the allocation
table page has entries 1-4 equal to 0x0000 (reserved), entries 5-127
equal to 0x0003 (free), the low byte of entry 0 equal to the sum of both
bytes of entries 5..127 truncated to 8 bits, and the identical page is
stored at the primary offset 0x100 and the backup offset 0x200. -/
theorem c5_fat_page_layout :
    readSlice vcpak_create_empty_data 0x100 256 = fat_page ∧
    readSlice vcpak_create_empty_data 0x200 256 = fat_page ∧
    (∀ i, i < 5 → 1 ≤ i →
      fat_page.getD (2 * i) 0 = 0x00 ∧ fat_page.getD (2 * i + 1) 0 = 0x00) ∧
    (∀ i, i < 128 → 5 ≤ i →
      fat_page.getD (2 * i) 0 = 0x00 ∧ fat_page.getD (2 * i + 1) 0 = 0x03) ∧
    fat_page.getD 1 0 =
      (((List.range 128).drop 5).map
        (fun i => fat_page.getD (2 * i) 0 + fat_page.getD (2 * i + 1) 0)).sum
        % 256 := by
  have h100 : readSlice vcpak_create_empty_data 0x100 256 = fat_page := by
    unfold vcpak_create_empty_data
    rw [readSlice_writeBytes_left _ _ _ _ _ (by norm_num)
      (by rw [create_empty_len5]; norm_num)]
    have := readSlice_writeBytes_self
      (writeBytes (writeBytes (writeBytes (writeBytes
        (List.replicate CPAK_BANK_SIZE 0) 0x20 id_sector) 0x60 id_sector)
        0x80 id_sector) 0xC0 id_sector)
      fat_page 0x100 (by rw [create_empty_len4]; norm_num)
    rwa [fat_page_length] at this
  have h200 : readSlice vcpak_create_empty_data 0x200 256 = fat_page := by
    unfold vcpak_create_empty_data
    have := readSlice_writeBytes_self
      (writeBytes (writeBytes (writeBytes (writeBytes (writeBytes
        (List.replicate CPAK_BANK_SIZE 0) 0x20 id_sector) 0x60 id_sector)
        0x80 id_sector) 0xC0 id_sector) 0x100 fat_page)
      fat_page 0x200 (by rw [create_empty_len5]; norm_num)
    rwa [fat_page_length] at this
  exact ⟨h100, h200, by decide, by decide, by decide⟩

/-- Witness for C5's bounded-quantifier components at concrete entries
(entry 2 reserved, entry 7 free). -/
theorem c5_fat_page_layout_witness :
    (fat_page.getD 4 0 = 0x00 ∧ fat_page.getD 5 0 = 0x00) ∧
    (fat_page.getD 14 0 = 0x00 ∧ fat_page.getD 15 0 = 0x03) :=
  ⟨c5_fat_page_layout.2.2.1 2 (by norm_num) (by norm_num),
    c5_fat_page_layout.2.2.2.1 7 (by norm_num) (by norm_num)⟩

/-!
Pak catalog lemmas and claims C7, C8.
-/

theorem pakScan_entries (d lu : List Nat) (ns : List (List Nat)) :
    ∀ (cnt : Nat) (sel : Int),
    (pakScan d lu ns cnt sel).1 = (ns.filter hasPakExt).map (vcpak_mkEntry d lu) := by
  induction ns with
  | nil => intro cnt sel; simp [pakScan]
  | cons n rest ih =>
      intro cnt sel
      by_cases hx : hasPakExt n = true <;>
        simp [pakScan, hx, List.filter_cons, ih]

theorem pakScan_sel_of_no_mark (d lu : List Nat) (ns : List (List Nat)) :
    ∀ (cnt : Nat) (sel : Int),
    (∀ n ∈ ns, hasPakExt n = true →
      (vcpak_mkEntry d lu n).is_last_used = false) →
    (pakScan d lu ns cnt sel).2 = sel := by
  induction ns with
  | nil => intro cnt sel _; simp [pakScan]
  | cons n rest ih =>
      intro cnt sel h
      by_cases hx : hasPakExt n = true
      · have hm := h n (by simp) hx
        simp only [pakScan, hx, if_true, hm, if_false, Bool.false_eq_true]
        exact ih (cnt + 1) sel (fun m hm' hx' => h m (by simp [hm']) hx')
      · simp only [pakScan, hx, if_false, Bool.false_eq_true]
        exact ih cnt sel (fun m hm' hx' => h m (by simp [hm']) hx')

theorem pakScan_sel_of_mark (d lu : List Nat) (ns : List (List Nat)) :
    ∀ (cnt : Nat) (sel : Int),
    (∃ n ∈ ns, hasPakExt n = true ∧
      (vcpak_mkEntry d lu n).is_last_used = true) →
    ∃ j, j < ((ns.filter hasPakExt).map (vcpak_mkEntry d lu)).length ∧
      (pakScan d lu ns cnt sel).2 = (cnt : Int) + j ∧
      (((ns.filter hasPakExt).map (vcpak_mkEntry d lu)).getD j
        default).is_last_used = true := by
  induction ns with
  | nil => rintro cnt sel ⟨n, hn, -, -⟩; exact absurd hn (by simp)
  | cons n rest ih =>
      rintro cnt sel ⟨m, hm, hmx, hmark⟩
      by_cases hx : hasPakExt n = true
      · by_cases hrest : ∃ m ∈ rest, hasPakExt m = true ∧
            (vcpak_mkEntry d lu m).is_last_used = true
        · obtain ⟨j, hj, hsel, hmk⟩ := ih (cnt + 1)
            (if (vcpak_mkEntry d lu n).is_last_used then (cnt : Int) else sel)
            hrest
          refine ⟨j + 1, ?_, ?_, ?_⟩
          · simp only [List.filter_cons, hx, if_true, List.map_cons,
              List.length_cons]
            omega
          · simp only [pakScan, hx, if_true]
            rw [hsel]
            push_cast
            ring
          · simp only [List.filter_cons, hx, if_true, List.map_cons,
              List.getD_cons_succ]
            exact hmk
        · have hnomark : ∀ m ∈ rest, hasPakExt m = true →
              (vcpak_mkEntry d lu m).is_last_used = false := by
            intro m hm' hx'
            by_contra hcon
            exact hrest ⟨m, hm', hx', by
              cases hB : (vcpak_mkEntry d lu m).is_last_used
              · exact absurd hB hcon
              · rfl⟩
          have hnm : (vcpak_mkEntry d lu n).is_last_used = true := by
            rcases List.mem_cons.mp hm with rfl | hm'
            · exact hmark
            · exact absurd ⟨m, hm', hmx, hmark⟩ hrest
          refine ⟨0, ?_, ?_, ?_⟩
          · simp [List.filter_cons, hx]
          · simp only [pakScan, hx, if_true, hnm]
            rw [pakScan_sel_of_no_mark d lu rest (cnt + 1) (cnt : Int) hnomark]
            simp
          · simp only [List.filter_cons, hx, if_true, List.map_cons,
              List.getD_cons_zero]
            exact hnm
      · have hm' : m ∈ rest := by
          rcases List.mem_cons.mp hm with rfl | hm'
          · exact absurd hmx hx
          · exact hm'
        obtain ⟨j, hj, hsel, hmk⟩ := ih cnt sel ⟨m, hm', hmx, hmark⟩
        refine ⟨j, ?_, ?_, ?_⟩
        · simpa [List.filter_cons, hx] using hj
        · simp only [pakScan, hx, if_false, Bool.false_eq_true]
          exact hsel
        · simpa [List.filter_cons, hx] using hmk

theorem mkEntry_marked_iff (d lu n : List Nat) (hlu : lu ≠ []) :
    (vcpak_mkEntry d lu n).is_last_used = true ↔
      (vcpak_mkEntry d lu n).filename = lu := by
  simp [vcpak_mkEntry, hlu]

/-- Claim C7: in a listing over an existing directory, when
`last_used_filename` is non-empty and exactly one enumerated `.pak`
entry carries that filename, exactly that one entry is marked
`is_last_used` and the selection index refers to it; when no entry
matches but the listing is non-empty, no entry is marked and the
selection index defaults to 0. -/
theorem c7_last_used_marking (sp gc : List Nat) (dir_names : List (List Nat))
    (lu : List Nat) (hlu : lu ≠ []) :
    (((vcpak_list_paks sp gc true dir_names lu).2.entries.filter
        (fun e => decide (e.filename = lu))).length = 1 →
      ((vcpak_list_paks sp gc true dir_names lu).2.entries.filter
        (fun e => e.is_last_used)).length = 1 ∧
      0 ≤ (vcpak_list_paks sp gc true dir_names lu).2.selected ∧
      (vcpak_list_paks sp gc true dir_names lu).2.selected.toNat <
        (vcpak_list_paks sp gc true dir_names lu).2.entries.length ∧
      ((vcpak_list_paks sp gc true dir_names lu).2.entries.getD
        (vcpak_list_paks sp gc true dir_names lu).2.selected.toNat
          default).is_last_used = true ∧
      ((vcpak_list_paks sp gc true dir_names lu).2.entries.getD
        (vcpak_list_paks sp gc true dir_names lu).2.selected.toNat
          default).filename = lu) ∧
    ((∀ e ∈ (vcpak_list_paks sp gc true dir_names lu).2.entries,
        e.filename ≠ lu) →
      (vcpak_list_paks sp gc true dir_names lu).2.entries ≠ [] →
      (∀ e ∈ (vcpak_list_paks sp gc true dir_names lu).2.entries,
        e.is_last_used = false) ∧
      (vcpak_list_paks sp gc true dir_names lu).2.selected = 0) := by
  have hent : (vcpak_list_paks sp gc true dir_names lu).2.entries =
      (dir_names.filter hasPakExt).map
        (vcpak_mkEntry (vcpak_game_dir sp gc) lu) := by
    simp [vcpak_list_paks, pakScan_entries]
  have hmem_mk : ∀ e ∈ (dir_names.filter hasPakExt).map
      (vcpak_mkEntry (vcpak_game_dir sp gc) lu),
      ∃ n, n ∈ dir_names ∧ hasPakExt n = true ∧
        e = vcpak_mkEntry (vcpak_game_dir sp gc) lu n := by
    intro e he
    obtain ⟨n, hn, rfl⟩ := List.mem_map.mp he
    exact ⟨n, (List.mem_filter.mp hn).1, (List.mem_filter.mp hn).2, rfl⟩
  constructor
  · intro hone
    have hmark_eq : ∀ e ∈ (vcpak_list_paks sp gc true dir_names lu).2.entries,
        e.is_last_used = decide (e.filename = lu) := by
      rw [hent]
      intro e he
      obtain ⟨n, -, -, rfl⟩ := hmem_mk e he
      simp [vcpak_mkEntry, hlu]
    have hfil : ((vcpak_list_paks sp gc true dir_names lu).2.entries.filter
          (fun e => e.is_last_used)).length = 1 := by
      rw [List.filter_congr hmark_eq]
      exact hone
    have hex : ∃ n ∈ dir_names, hasPakExt n = true ∧
        (vcpak_mkEntry (vcpak_game_dir sp gc) lu n).is_last_used = true := by
      have hpos : 0 < ((vcpak_list_paks sp gc true dir_names lu).2.entries.filter
          (fun e => e.is_last_used)).length := by omega
      obtain ⟨e, he⟩ := List.exists_mem_of_length_pos hpos
      have hmem := List.mem_filter.mp he
      obtain ⟨n, hn, hx, rfl⟩ := hmem_mk e (hent ▸ hmem.1)
      exact ⟨n, hn, hx, by simpa using hmem.2⟩
    obtain ⟨j, hj, hsel, hmk⟩ :=
      pakScan_sel_of_mark (vcpak_game_dir sp gc) lu dir_names 0 (-1) hex
    have hself : (vcpak_list_paks sp gc true dir_names lu).2.selected =
        (if (pakScan (vcpak_game_dir sp gc) lu dir_names 0 (-1)).2 < 0 ∧
            0 < (pakScan (vcpak_game_dir sp gc) lu dir_names 0 (-1)).1.length
          then 0 else (pakScan (vcpak_game_dir sp gc) lu dir_names 0 (-1)).2) :=
      rfl
    have hsel' : (vcpak_list_paks sp gc true dir_names lu).2.selected = (j : Int) := by
      rw [hself, hsel, if_neg]
      · omega
      · rintro ⟨hlt, -⟩
        omega
    refine ⟨hfil, by rw [hsel']; exact Int.natCast_nonneg j, ?_, ?_, ?_⟩
    · rw [hsel', hent]
      simpa using hj
    · rw [hsel', hent]
      simpa using hmk
    · rw [hsel', hent]
      simp only [Int.toNat_natCast]
      have hgetd : (((dir_names.filter hasPakExt).map
          (vcpak_mkEntry (vcpak_game_dir sp gc) lu)).getD j default) =
          vcpak_mkEntry (vcpak_game_dir sp gc) lu
            (((dir_names.filter hasPakExt)).getD j default) := by
        rw [List.getD_eq_getElem?_getD, List.getD_eq_getElem?_getD,
          List.getElem?_map]
        have hjlen : j < (dir_names.filter hasPakExt).length := by
          simpa using hj
        rw [List.getElem?_eq_getElem hjlen]
        rfl
      rw [hgetd, ← mkEntry_marked_iff _ _ _ hlu]
      rw [hgetd] at hmk
      exact hmk
  · intro hnone hne
    have hnomark : ∀ n ∈ dir_names, hasPakExt n = true →
        (vcpak_mkEntry (vcpak_game_dir sp gc) lu n).is_last_used = false := by
      intro n hn hx
      have hmem : vcpak_mkEntry (vcpak_game_dir sp gc) lu n ∈
          (vcpak_list_paks sp gc true dir_names lu).2.entries := by
        rw [hent]
        exact List.mem_map.mpr ⟨n, List.mem_filter.mpr ⟨hn, hx⟩, rfl⟩
      have hfn := hnone _ hmem
      cases hB : (vcpak_mkEntry (vcpak_game_dir sp gc) lu n).is_last_used
      · rfl
      · exact absurd ((mkEntry_marked_iff _ _ _ hlu).mp hB) hfn
    have hsel0 : (pakScan (vcpak_game_dir sp gc) lu dir_names 0 (-1)).2 = -1 :=
      pakScan_sel_of_no_mark _ _ _ 0 (-1) hnomark
    refine ⟨?_, ?_⟩
    · intro e he
      obtain ⟨n, -, -, rfl⟩ := hmem_mk e (hent ▸ he)
      cases hB : (vcpak_mkEntry (vcpak_game_dir sp gc) lu n).is_last_used
      · rfl
      · exact absurd ((mkEntry_marked_iff _ _ _ hlu).mp hB) (hnone _ he)
    · have hself : (vcpak_list_paks sp gc true dir_names lu).2.selected =
          (if (pakScan (vcpak_game_dir sp gc) lu dir_names 0 (-1)).2 < 0 ∧
              0 < (pakScan (vcpak_game_dir sp gc) lu dir_names 0 (-1)).1.length
            then 0 else (pakScan (vcpak_game_dir sp gc) lu dir_names 0 (-1)).2) :=
        rfl
      have hE : (vcpak_list_paks sp gc true dir_names lu).2.entries =
          (pakScan (vcpak_game_dir sp gc) lu dir_names 0 (-1)).1 := rfl
      have hlen : 0 < (pakScan (vcpak_game_dir sp gc) lu dir_names 0 (-1)).1.length := by
        rw [hE] at hne
        cases hC : (pakScan (vcpak_game_dir sp gc) lu dir_names 0 (-1)).1
        · exact absurd hC hne
        · simp [hC]
      rw [hself, hsel0, if_pos ⟨by norm_num, hlen⟩]

/-- Witness for C7: a directory with `a.pak`, `b.pak` and `note.txt`;
with `last_used_filename = "b.pak"` exactly the second entry is marked
and selected; with `last_used_filename = "zz.pak"` nothing is marked and
entry 0 is selected. -/
theorem c7_last_used_marking_witness :
    (((vcpak_list_paks (strBytes "sd:") (strBytes "GAME") true
        [strBytes "a.pak", strBytes "b.pak", strBytes "note.txt"]
        (strBytes "b.pak")).2.entries.filter
        (fun e => e.is_last_used)).length = 1 ∧
      0 ≤ (vcpak_list_paks (strBytes "sd:") (strBytes "GAME") true
        [strBytes "a.pak", strBytes "b.pak", strBytes "note.txt"]
        (strBytes "b.pak")).2.selected ∧
      (vcpak_list_paks (strBytes "sd:") (strBytes "GAME") true
        [strBytes "a.pak", strBytes "b.pak", strBytes "note.txt"]
        (strBytes "b.pak")).2.selected.toNat <
        (vcpak_list_paks (strBytes "sd:") (strBytes "GAME") true
          [strBytes "a.pak", strBytes "b.pak", strBytes "note.txt"]
          (strBytes "b.pak")).2.entries.length ∧
      ((vcpak_list_paks (strBytes "sd:") (strBytes "GAME") true
        [strBytes "a.pak", strBytes "b.pak", strBytes "note.txt"]
        (strBytes "b.pak")).2.entries.getD
          (vcpak_list_paks (strBytes "sd:") (strBytes "GAME") true
            [strBytes "a.pak", strBytes "b.pak", strBytes "note.txt"]
            (strBytes "b.pak")).2.selected.toNat
          default).is_last_used = true ∧
      ((vcpak_list_paks (strBytes "sd:") (strBytes "GAME") true
        [strBytes "a.pak", strBytes "b.pak", strBytes "note.txt"]
        (strBytes "b.pak")).2.entries.getD
          (vcpak_list_paks (strBytes "sd:") (strBytes "GAME") true
            [strBytes "a.pak", strBytes "b.pak", strBytes "note.txt"]
            (strBytes "b.pak")).2.selected.toNat
          default).filename = strBytes "b.pak") ∧
    ((∀ e ∈ (vcpak_list_paks (strBytes "sd:") (strBytes "GAME") true
        [strBytes "a.pak", strBytes "b.pak", strBytes "note.txt"]
        (strBytes "zz.pak")).2.entries, e.is_last_used = false) ∧
      (vcpak_list_paks (strBytes "sd:") (strBytes "GAME") true
        [strBytes "a.pak", strBytes "b.pak", strBytes "note.txt"]
        (strBytes "zz.pak")).2.selected = 0) :=
  ⟨(c7_last_used_marking (strBytes "sd:") (strBytes "GAME")
      [strBytes "a.pak", strBytes "b.pak", strBytes "note.txt"]
      (strBytes "b.pak") (by decide)).1 (by decide),
    (c7_last_used_marking (strBytes "sd:") (strBytes "GAME")
      [strBytes "a.pak", strBytes "b.pak", strBytes "note.txt"]
      (strBytes "zz.pak") (by decide)).2 (by decide) (by decide)⟩

/-- Claim C8: when the per-game directory does not exist,
`vcpak_list_paks` returns `VCPAK_OK` (not an error) with an empty
listing and the "create new" selection sentinel `-1`. -/
theorem c8_missing_directory_empty_listing (sp gc : List Nat)
    (dir_names : List (List Nat)) (lu : List Nat) :
    vcpak_list_paks sp gc false dir_names lu =
      (VcpakErr.ok,
        { entries := [], count := 0, selected := -1, game_code := gc.take 4 }) :=
  rfl

/-!
Filename generation: claim C4.
-/

theorem probeGo_spec (fe : List Nat → Bool) (stem : List Nat) :
    ∀ (fuel i : Nat),
    (∃ k, k < fuel ∧ fe (pakNumName stem (i + k)) = false) →
    ∃ k, k < fuel ∧ probeGo fe stem i fuel = some (pakNumName stem (i + k)) ∧
      fe (pakNumName stem (i + k)) = false ∧
      ∀ m, m < k → fe (pakNumName stem (i + m)) = true := by
  intro fuel
  induction fuel with
  | zero => rintro i ⟨k, hk, -⟩; omega
  | succ fuel ih =>
      rintro i ⟨k, hk, hfree⟩
      by_cases hfe : fe (pakNumName stem i) = true
      · have hk0 : k ≠ 0 := by
          rintro rfl
          rw [Nat.add_zero] at hfree
          rw [hfe] at hfree
          exact absurd hfree (by simp)
        obtain ⟨k', hk', hres, hfree', hmin⟩ := ih (i + 1)
          ⟨k - 1, by omega, by
            rw [show i + 1 + (k - 1) = i + k from by omega]; exact hfree⟩
        refine ⟨k' + 1, by omega, ?_, ?_, ?_⟩
        · simp only [probeGo, hfe, if_true]
          rw [show i + (k' + 1) = i + 1 + k' from by omega]
          exact hres
        · rw [show i + (k' + 1) = i + 1 + k' from by omega]
          exact hfree'
        · intro m hm
          cases m with
          | zero => simpa using hfe
          | succ m' =>
              rw [show i + (m' + 1) = i + 1 + m' from by omega]
              exact hmin m' (by omega)
      · have hfe' : fe (pakNumName stem i) = false := by
          cases hB : fe (pakNumName stem i)
          · rfl
          · exact absurd hB hfe
        refine ⟨0, by omega, ?_, by simpa using hfe',
          fun m hm => absurd hm (by omega)⟩
        simp [probeGo, hfe']

/-- Claim C4 (amended): whenever at least one of the 999 numbered names
is free in the per-game directory, `vcpak_generate_filename` returns the
first non-existing `<stem>_NNN.pak` (probing in increasing order), a
name that does not exist at call time; when all 999 numbered names are
taken it falls back to `<stem>_<timestamp>.pak`, which is not guaranteed
fresh.  The second conjunct is the claim's concrete instance: with
`Foo_001.pak` ... `Foo_010.pak` present, the result is `Foo_011.pak`. -/
theorem c4_generate_filename_fresh :
    (∀ (file_ex : List Nat → Bool) (gc title : List Nat) (now : Nat),
      (∃ i, 1 ≤ i ∧ i ≤ 999 ∧
        file_ex (pakNumName (vcpak_stem gc title) i) = false) →
      file_ex (vcpak_generate_filename file_ex gc title now) = false ∧
      ∃ i, 1 ≤ i ∧ i ≤ 999 ∧
        vcpak_generate_filename file_ex gc title now
          = pakNumName (vcpak_stem gc title) i ∧
        ∀ j, 1 ≤ j → j < i → file_ex (pakNumName (vcpak_stem gc title) j) = true) ∧
    vcpak_generate_filename
      (fun n => decide (n ∈ (List.range' 1 10).map (pakNumName (strBytes "Foo"))))
      (strBytes "FOOX") (strBytes "Foo") 0 = strBytes "Foo_011.pak" := by
  constructor
  · rintro fe gc title now ⟨i, hi1, hi999, hfree⟩
    obtain ⟨k, hk, hres, hfree', hmin⟩ := probeGo_spec fe (vcpak_stem gc title)
      999 1 ⟨i - 1, by omega, by
        rw [show 1 + (i - 1) = i from by omega]; exact hfree⟩
    have hgen : vcpak_generate_filename fe gc title now
        = pakNumName (vcpak_stem gc title) (1 + k) := by
      unfold vcpak_generate_filename
      simp only [hres]
    refine ⟨by rw [hgen]; exact hfree', 1 + k, by omega, by omega, hgen, ?_⟩
    intro j hj1 hjk
    have := hmin (j - 1) (by omega)
    rwa [show 1 + (j - 1) = j from by omega] at this
  · decide

/-- Claim C4, counterexample to the claim as stated: in a directory
state where every probed name exists (`file_exists` constantly true —
all 999 numbered names and the timestamp fallback are taken),
`vcpak_generate_filename` returns the fallback `Foo_0.pak` (timestamp
0), a name that does exist in the directory at call time. -/
theorem c4_generate_filename_counterexample :
    vcpak_generate_filename (fun _ => true) (strBytes "FOOX") (strBytes "Foo") 0
      = strBytes "Foo_0.pak" ∧
    (fun _ => true : List Nat → Bool)
      (vcpak_generate_filename (fun _ => true) (strBytes "FOOX")
        (strBytes "Foo") 0) = true := by
  exact ⟨by decide, rfl⟩

/-- Witness for C4 (amended) at the claim's own example: the directory
holding exactly `Foo_001.pak` ... `Foo_010.pak`. -/
theorem c4_generate_filename_fresh_witness :
    (fun n => decide (n ∈ (List.range' 1 10).map (pakNumName (strBytes "Foo"))))
      (vcpak_generate_filename
        (fun n => decide (n ∈ (List.range' 1 10).map (pakNumName (strBytes "Foo"))))
        (strBytes "FOOX") (strBytes "Foo") 0) = false ∧
    ∃ i, 1 ≤ i ∧ i ≤ 999 ∧
      vcpak_generate_filename
        (fun n => decide (n ∈ (List.range' 1 10).map (pakNumName (strBytes "Foo"))))
        (strBytes "FOOX") (strBytes "Foo") 0
        = pakNumName (vcpak_stem (strBytes "FOOX") (strBytes "Foo")) i ∧
      ∀ j, 1 ≤ j → j < i →
        (fun n => decide (n ∈ (List.range' 1 10).map (pakNumName (strBytes "Foo"))))
          (pakNumName (vcpak_stem (strBytes "FOOX") (strBytes "Foo")) j) = true :=
  c4_generate_filename_fresh.1
    (fun n => decide (n ∈ (List.range' 1 10).map (pakNumName (strBytes "Foo"))))
    (strBytes "FOOX") (strBytes "Foo") 0
    ⟨11, by norm_num, by norm_num, by decide⟩

/-!
Startup recovery: claim C1.
-/

/-- Claim C1, showing the code bug: on a filesystem holding a valid
dirty journal record, with the virtual-cpak feature enabled and a
physical pak present at port 0, `view_startup_init` attempts the backup;
when the backup fails (here `VCPAK_ERR_IO`, leaving the filesystem
unchanged), the source nevertheless clears the journal: afterwards the
record is gone (`vcpak_state_load` reports `VCPAK_ERR_FILE_NOT_FOUND`),
contradicting the claim that a failed backup leaves the record present
with `dirty = 1` for manual recovery. -/
theorem c1_startup_clears_journal_despite_failed_backup :
    vcpak_state_load
        [(vcpak_get_state_path "sd:", encodeState (mkTestState VCPAK_STATE_MAGIC 100 1))]
        "sd:" = .ok (mkTestState VCPAK_STATE_MAGIC 100 1) ∧
    (mkTestState VCPAK_STATE_MAGIC 100 1).is_dirty = 1 ∧
    ((fun f => (VcpakErr.ioError, f) : Fs → VcpakErr × Fs)
        [(vcpak_get_state_path "sd:", encodeState (mkTestState VCPAK_STATE_MAGIC 100 1))]).1
      ≠ VcpakErr.ok ∧
    vcpak_state_load
        (view_startup_init
          [(vcpak_get_state_path "sd:", encodeState (mkTestState VCPAK_STATE_MAGIC 100 1))]
          "sd:" true false true (fun f => (VcpakErr.ioError, f))).1
        "sd:" = .error VcpakErr.fileNotFound := by
  have hwf : WFState (mkTestState VCPAK_STATE_MAGIC 100 1) := by decide
  have hload := state_load_of_encoded
    [(vcpak_get_state_path "sd:", encodeState (mkTestState VCPAK_STATE_MAGIC 100 1))]
    "sd:" (mkTestState VCPAK_STATE_MAGIC 100 1) hwf (by decide) (by simp [fsGet])
  refine ⟨hload, by decide, by decide, ?_⟩
  have hstep : (view_startup_init
      [(vcpak_get_state_path "sd:", encodeState (mkTestState VCPAK_STATE_MAGIC 100 1))]
      "sd:" true false true (fun f => (VcpakErr.ioError, f))).1
      = (vcpak_state_clear
          [(vcpak_get_state_path "sd:", encodeState (mkTestState VCPAK_STATE_MAGIC 100 1))]
          "sd:").2 := by
    have hd : (mkTestState VCPAK_STATE_MAGIC 100 1).is_dirty = 1 := rfl
    simp [view_startup_init, hload, hd]
  rw [hstep]
  exact state_clear_then_load _ "sd:"

end VCPakModel
